import Mathlib

/-!
Verification of the course-catalog application (`CS203_Lab_01/app.py`).

The application is a Flask CRUD service over a single JSON file
(`course_catalog.json`).  We embed the store (`load_courses`,
`save_courses`) and the request handlers (`course_catalog`,
`course_details`, `add_course`) shallowly:

* the catalog file is a `Storage` value: `none` when the file does not
  exist, `some (.catalogJson cs)` when it holds a well-formed JSON array
  of course records (the only thing `save_courses` ever writes), and
  `some .malformed` when its content makes `json.load` raise;
* Python exceptions (`json.JSONDecodeError` from `json.load`, the
  `BadRequestKeyError` raised by `request.form[key]` on a missing form
  key) become `Except Failure`;
* handlers thread the storage state explicitly and return the rendered
  response (or redirect-with-flash) paired with the storage state after
  the request.
-/

namespace CourseCatalog

/-- A course record: the nine string fields `add_course` builds from the
form (app.py lines 115-125) and stores in the JSON file. -/
structure Course where
  code : String
  coursename : String
  instructor : String
  semester : String
  schedule : String
  classroom : String
  prerequisites : String
  grading : String
  description : String
deriving DecidableEq, Repr

/-- Content of `course_catalog.json` when the file exists: a well-formed
JSON array of course records, or text that `json.load` rejects. -/
inductive FileContent where
  | catalogJson (courses : List Course)
  | malformed
deriving DecidableEq, Repr

/-- The persistent state: `none` when `course_catalog.json` does not
exist (the `os.path.exists` test in `load_courses` fails). -/
abbrev Storage := Option FileContent

/-- The ways a request dies with an unhandled exception in this app:
`json.load` raising on a malformed file, or `request.form[key]` raising
`BadRequestKeyError` (HTTP 400) for a missing form key. -/
inductive Failure where
  | parseError
  | badRequest
deriving DecidableEq, Repr

/-- `load_courses` (app.py lines 55-59): returns `[]` when the file does
not exist, otherwise `json.load`s it — raising on malformed content. -/
def load_courses : Storage → Except Failure (List Course)
  | none => .ok []
  | some (.catalogJson courses) => .ok courses
  | some .malformed => .error .parseError

/-- `save_courses` (app.py lines 62-66): loads the catalog (propagating
any exception), appends `data`, rewrites the whole file as a JSON array. -/
def save_courses (data : Course) (s : Storage) : Except Failure Storage :=
  match load_courses s with
  | .error e => .error e
  | .ok courses => .ok (some (.catalogJson (courses ++ [data])))

/-- The transient flash message attached to a redirect. `missingFields`
carries the `missing_fields` list the handler computes and logs (the
flashed text itself is the fixed string "Some fields were missing."). -/
inductive Flash where
  | notFound (code : String)
  | missingFields (missing : List String)
  | addedSuccess (coursename : String)
deriving DecidableEq, Repr

/-- The outcome of a handled request: a rendered template or a redirect
to `/catalog` carrying a flash message. -/
inductive Response where
  | renderCatalog (courses : List Course)
  | renderDetails (course : Course)
  | redirectCatalog (msg : Flash)
deriving DecidableEq, Repr

/-- `course_catalog` (app.py lines 78-85): loads the catalog and renders
it; the tracing/logging side effects carry no control flow. -/
def course_catalog (s : Storage) : Except Failure (Response × Storage) :=
  match load_courses s with
  | .error e => .error e
  | .ok courses => .ok (.renderCatalog courses, s)

/-- `course_details` (app.py lines 92-104): loads the catalog, takes the
first record whose `code` equals the path parameter
(`next((course for course in courses if course['code'] == code), None)`),
and either renders it or redirects with a not-found flash. -/
def course_details (code : String) (s : Storage) :
    Except Failure (Response × Storage) :=
  match load_courses s with
  | .error e => .error e
  | .ok courses =>
    match courses.find? (fun course => course.code == code) with
    | none => .ok (.redirectCatalog (.notFound code), s)
    | some course => .ok (.renderDetails course, s)

/-- The POSTed form: each field is `some value` when the key is present
in `request.form` and `none` when it is absent. -/
structure Form where
  code : Option String := none
  coursename : Option String := none
  instructor : Option String := none
  semester : Option String := none
  schedule : Option String := none
  classroom : Option String := none
  prerequisites : Option String := none
  grading : Option String := none
  description : Option String := none
deriving DecidableEq, Repr

/-- Python `str.strip()` with no argument: drop whitespace from both
ends (the validation only ever tests the result for emptiness). -/
def pyStrip (s : String) : String :=
  ⟨((s.data.dropWhile Char.isWhitespace).reverse.dropWhile Char.isWhitespace).reverse⟩

/-- Python dict access `course_data[field]` by field name, for the
`missing_fields` comprehension (app.py line 131). -/
def fieldValue (c : Course) : String → String
  | "code" => c.code
  | "coursename" => c.coursename
  | "instructor" => c.instructor
  | "semester" => c.semester
  | "schedule" => c.schedule
  | "classroom" => c.classroom
  | "prerequisites" => c.prerequisites
  | "grading" => c.grading
  | "description" => c.description
  | _ => ""

/-- `required_fields` (app.py line 130). -/
def required_fields : List String := ["coursename", "instructor"]

/-- The POST branch of `add_course` (app.py lines 113-145).
`request.form[key]` raises `BadRequestKeyError` for the six directly
indexed keys when absent (the exception names the first missing key, but
the observable outcome — an HTTP 400 with nothing written — is the same
whichever key is missing, so a single simultaneous match is equivalent);
`request.form.get(key, '')` defaults the last three to `""`.  Validation
(`missing_fields`) checks only `coursename` and `instructor` for being
empty after `.strip()` (modelled by `pyStrip`). -/
def add_course (form : Form) (s : Storage) :
    Except Failure (Response × Storage) :=
  match form.code, form.coursename, form.instructor,
        form.semester, form.schedule, form.classroom with
  | some code, some coursename, some instructor,
    some semester, some schedule, some classroom =>
    let course_data : Course :=
      { code, coursename, instructor, semester, schedule, classroom,
        prerequisites := form.prerequisites.getD ""
        grading := form.grading.getD ""
        description := form.description.getD "" }
    let missing_fields :=
      required_fields.filter (fun field => pyStrip (fieldValue course_data field) == "")
    if missing_fields.isEmpty then
      match save_courses course_data s with
      | .error e => .error e
      | .ok s' => .ok (.redirectCatalog (.addedSuccess course_data.coursename), s')
    else
      .ok (.redirectCatalog (.missingFields missing_fields), s)
  | _, _, _, _, _, _ => .error .badRequest

/-- A sample record, used to instantiate hypotheses on concrete inputs. -/
def cs101 : Course :=
  { code := "CS101", coursename := "Intro", instructor := "A. Smith",
    semester := "", schedule := "", classroom := "",
    prerequisites := "", grading := "", description := "" }

/-- A duplicate of `cs101` under the same code with a different
instructor, for concrete duplicate-code scenarios. -/
def cs101dup : Course := { cs101 with instructor := "B. Jones" }

/-- The storage state a handler leaves behind: the state it returned on
success, the untouched prior state when it died on an exception (the file
is only ever written by `save_courses`, after every point that can raise). -/
def storageAfter (result : Except Failure (Response × Storage)) (prior : Storage) : Storage :=
  match result with
  | .ok (_, s') => s'
  | .error _ => prior

/-- Recognises the validation-failure outcome of `add_course`: the
redirect carrying the missing-fields flash, with the catalog file left
exactly as it was (`prior`). -/
def isMissingReject (prior : Storage) : Except Failure (Response × Storage) → Bool
  | .ok (.redirectCatalog (.missingFields _), s') => s' == prior
  | _ => false

/-- The claim that any POST with non-blank required fields and every
optional form field absent (`semester`, `schedule`, `classroom`,
`prerequisites`, `grading`, `description` all missing from the form)
succeeds and stores the optional fields as empty strings. -/
def OmittedOptionalOk : Prop :=
  ∀ (f : Form) (s : Storage) (cs : List Course) (co cn ins : String),
    load_courses s = .ok cs →
    f.code = some co → f.coursename = some cn → f.instructor = some ins →
    pyStrip cn ≠ "" → pyStrip ins ≠ "" →
    f.semester = none → f.schedule = none → f.classroom = none →
    f.prerequisites = none → f.grading = none → f.description = none →
    add_course f s = .ok (.redirectCatalog (.addedSuccess cn),
      some (.catalogJson (cs ++
        [{ code := co, coursename := cn, instructor := ins,
           semester := "", schedule := "", classroom := "",
           prerequisites := "", grading := "", description := "" }])))

/-- A POST supplying only the three required keys, every optional field
omitted — a browser would send all six text inputs, but the claim under
test quantifies over submissions that omit the optional keys. -/
def omittedOptionalForm : Form :=
  { code := some "CS101", coursename := some "Intro", instructor := some "A. Smith" }

/-- A POST whose `coursename` is blank and whose `semester` key is
absent: validation would reject it, but `request.form['semester']`
raises first. -/
def blankNameShortForm : Form :=
  { code := some "CS1", coursename := some "", instructor := some "X" }

/-- A POST with all six directly-indexed keys present and a
whitespace-only `coursename`. -/
def blankNameFullForm : Form :=
  { code := some "CS1", coursename := some "   ", instructor := some "X",
    semester := some "", schedule := some "", classroom := some "" }

/-- A POST with all six directly-indexed keys present, valid required
fields kept verbatim with surrounding whitespace, and the three
`form.get` keys absent. -/
def paddedNameForm : Form :=
  { code := some "CS101", coursename := some "  Intro  ", instructor := some "A. Smith",
    semester := some "Fall", schedule := some "MWF", classroom := some "101" }

/-- A fully populated valid POST whose three `form.get` keys are
absent. -/
def fallForm : Form :=
  { code := some "CS102", coursename := some "Algorithms", instructor := some "C. Lee",
    semester := some "Fall", schedule := some "TTh", classroom := some "L7" }

/-- Modelled from the spec: the process-wide counters of the second
near-duplicate application variant, which is not under `src/` — §9 names
them `request_counts` and `error_counts`, with no reset lifecycle. -/
structure Metrics where
  request_counts : Nat
  error_counts : Nat
deriving DecidableEq, Repr

/-- Modelled from the spec: the list handler of the counter-bearing
variant — same behaviour as `course_catalog`, plus §4.2's "increments a
request counter". -/
def course_catalog_counted (m : Metrics) (s : Storage) :
    Except Failure (Response × Storage × Metrics) :=
  match load_courses s with
  | .error e => .error e
  | .ok courses =>
    .ok (.renderCatalog courses, s, { m with request_counts := m.request_counts + 1 })

/-- Modelled from the spec: the create handler of the counter-bearing
variant — same behaviour as `add_course`, plus §4.4's "On validation
failure: increments an error counter". -/
def add_course_counted (form : Form) (m : Metrics) (s : Storage) :
    Except Failure (Response × Storage × Metrics) :=
  match form.code, form.coursename, form.instructor,
        form.semester, form.schedule, form.classroom with
  | some code, some coursename, some instructor,
    some semester, some schedule, some classroom =>
    let course_data : Course :=
      { code, coursename, instructor, semester, schedule, classroom,
        prerequisites := form.prerequisites.getD ""
        grading := form.grading.getD ""
        description := form.description.getD "" }
    let missing_fields :=
      required_fields.filter (fun field => pyStrip (fieldValue course_data field) == "")
    if missing_fields.isEmpty then
      match save_courses course_data s with
      | .error e => .error e
      | .ok s' => .ok (.redirectCatalog (.addedSuccess course_data.coursename), s', m)
    else
      .ok (.redirectCatalog (.missingFields missing_fields), s,
        { m with error_counts := m.error_counts + 1 })
  | _, _, _, _, _, _ => .error .badRequest

/-- C5: when no storage file exists, `load_courses` returns the empty
catalog and does not fail. -/
theorem load_courses_missing_file : load_courses none = .ok ([] : List Course) := rfl

/-- C1: from any well-formed catalog state (missing file or stored JSON
array, i.e. any `s` with `load_courses s = .ok cs`), `save_courses r`
succeeds and a subsequent `load_courses` returns a catalog one longer,
whose last element is `r` and whose preceding elements are the prior
catalog unchanged and in order. -/
theorem save_then_load_appends (s : Storage) (cs : List Course) (r : Course)
    (h : load_courses s = .ok cs) :
    save_courses r s = .ok (some (.catalogJson (cs ++ [r]))) ∧
    load_courses (some (.catalogJson (cs ++ [r]))) = .ok (cs ++ [r]) ∧
    (cs ++ [r]).length = cs.length + 1 ∧
    (cs ++ [r]).getLast? = some r ∧
    (cs ++ [r]).take cs.length = cs := by
  refine ⟨?_, rfl, by simp, by simp, by simp⟩
  simp [save_courses, h]

/-- C1 witness: the append-then-load property at the concrete state
"file absent" and the concrete record `cs101`. -/
theorem save_then_load_appends_witness :
    save_courses cs101 none = .ok (some (.catalogJson ([] ++ [cs101]))) ∧
    load_courses (some (.catalogJson ([] ++ [cs101]))) = .ok ([] ++ [cs101]) ∧
    ([] ++ [cs101]).length = ([] : List Course).length + 1 ∧
    ([] ++ [cs101]).getLast? = some cs101 ∧
    ([] ++ [cs101]).take ([] : List Course).length = [] :=
  save_then_load_appends none [] cs101 rfl

/-- C3: `course_details` returns the first record in catalog order whose
`code` equals the input exactly — when duplicates share the code, the
earliest wins — and `save_courses` appends any record regardless of its
code, so duplicate codes are never rejected. -/
theorem course_details_first_match (code : String) (l₁ l₂ : List Course) (c : Course)
    (hc : c.code = code) (hl : ∀ c' ∈ l₁, c'.code ≠ code) :
    course_details code (some (.catalogJson (l₁ ++ c :: l₂))) =
      .ok (.renderDetails c, some (.catalogJson (l₁ ++ c :: l₂))) ∧
    ∀ r : Course, save_courses r (some (.catalogJson (l₁ ++ c :: l₂))) =
      .ok (some (.catalogJson ((l₁ ++ c :: l₂) ++ [r]))) := by
  constructor
  · have hfind : (l₁ ++ c :: l₂).find? (fun course => course.code == code) = some c := by
      induction l₁ with
      | nil => simp [List.find?_cons, hc]
      | cons a l ih =>
        have ha : (a.code == code) = false := by
          simpa using hl a (List.mem_cons_self a l)
        simpa [List.find?_cons, ha] using ih fun c' hc' => hl c' (List.mem_cons_of_mem a hc')
    simp [course_details, load_courses, hfind]
  · intro r
    simp [save_courses, load_courses]

/-- C3 witness: with two records sharing code "CS101", the detail lookup
returns the first, and appending yet another record with the same code
succeeds. -/
theorem course_details_first_match_witness :
    course_details "CS101" (some (.catalogJson ([] ++ cs101 :: [cs101dup]))) =
      .ok (.renderDetails cs101, some (.catalogJson ([] ++ cs101 :: [cs101dup]))) ∧
    ∀ r : Course, save_courses r (some (.catalogJson ([] ++ cs101 :: [cs101dup]))) =
      .ok (some (.catalogJson (([] ++ cs101 :: [cs101dup]) ++ [r]))) :=
  course_details_first_match "CS101" [] [cs101dup] cs101 rfl (by simp)

/-- C6: for any well-formed catalog state and any code matching no stored
record, `course_details` terminates normally in the not-found outcome:
a redirect to the list view with the not-found flash (the error log is a
side channel), never an exception. -/
theorem course_details_not_found (code : String) (s : Storage) (cs : List Course)
    (hload : load_courses s = .ok cs) (habs : ∀ c ∈ cs, c.code ≠ code) :
    course_details code s = .ok (.redirectCatalog (.notFound code), s) := by
  have hfind : cs.find? (fun course => course.code == code) = none := by
    rw [List.find?_eq_none]
    intro c hc
    simpa using habs c hc
  simp [course_details, hload, hfind]

/-- C6 witness: looking up "CS999" in a one-record catalog holding only
`cs101` redirects with the not-found flash. -/
theorem course_details_not_found_witness :
    course_details "CS999" (some (.catalogJson [cs101])) =
      .ok (.redirectCatalog (.notFound "CS999"), some (.catalogJson [cs101])) :=
  course_details_not_found "CS999" (some (.catalogJson [cs101])) [cs101] rfl (by decide)

/-- C9: the read-only operations — `load_courses` (whose type takes no
write access to storage at all), the list handler and the detail handler,
found or not — leave the stored catalog exactly as it was, for every
starting state. -/
theorem read_handlers_preserve_storage (s : Storage) (code : String) :
    storageAfter (course_catalog s) s = s ∧
    storageAfter (course_details code s) s = s := by
  constructor
  · cases hload : load_courses s with
    | error e => simp [course_catalog, hload, storageAfter]
    | ok cs => simp [course_catalog, hload, storageAfter]
  · cases hload : load_courses s with
    | error e => simp [course_details, hload, storageAfter]
    | ok cs =>
      cases hfind : cs.find? (fun course => course.code == code) with
      | none => simp [course_details, hload, hfind, storageAfter]
      | some c => simp [course_details, hload, hfind, storageAfter]

/-- Evaluation of `add_course` on the validation-success path: all six
directly-indexed keys present and both required fields non-blank after
trimming. -/
theorem add_course_success_eq (f : Form) (s : Storage) (cs : List Course)
    (co cn ins sem sch cl : String)
    (hco : f.code = some co) (hcn : f.coursename = some cn)
    (hins : f.instructor = some ins) (hsem : f.semester = some sem)
    (hsch : f.schedule = some sch) (hcl : f.classroom = some cl)
    (hload : load_courses s = .ok cs)
    (hn : pyStrip cn ≠ "") (hi : pyStrip ins ≠ "") :
    add_course f s = .ok (.redirectCatalog (.addedSuccess cn),
      some (.catalogJson (cs ++
        [{ code := co, coursename := cn, instructor := ins,
           semester := sem, schedule := sch, classroom := cl,
           prerequisites := f.prerequisites.getD "",
           grading := f.grading.getD "",
           description := f.description.getD "" }]))) := by
  obtain ⟨a1, a2, a3, a4, a5, a6, a7, a8, a9⟩ := f
  dsimp only at hco hcn hins hsem hsch hcl
  subst hco hcn hins hsem hsch hcl
  simp [add_course, required_fields, fieldValue, save_courses, hload, hn, hi]

/-- Evaluation of `add_course` on the validation-failure path: all six
directly-indexed keys present and a required field blank after trimming.
The computed `missing_fields` list is returned in the flash outcome and
the storage is untouched. -/
theorem add_course_reject_eq (f : Form) (s : Storage)
    (co cn ins sem sch cl : String)
    (hco : f.code = some co) (hcn : f.coursename = some cn)
    (hins : f.instructor = some ins) (hsem : f.semester = some sem)
    (hsch : f.schedule = some sch) (hcl : f.classroom = some cl)
    (hmiss : pyStrip cn = "" ∨ pyStrip ins = "") :
    add_course f s = .ok (.redirectCatalog (.missingFields
      ((if pyStrip cn = "" then ["coursename"] else []) ++
       (if pyStrip ins = "" then ["instructor"] else []))), s) := by
  obtain ⟨a1, a2, a3, a4, a5, a6, a7, a8, a9⟩ := f
  dsimp only at hco hcn hins hsem hsch hcl
  subst hco hcn hins hsem hsch hcl
  by_cases h1 : pyStrip cn = "" <;> by_cases h2 : pyStrip ins = "" <;>
    (simp [add_course, required_fields, fieldValue, h1, h2]; try tauto)

/-- Evaluation of `add_course` when validation passes but loading the
catalog inside `save_courses` raises: the exception propagates. -/
theorem add_course_load_error_eq (f : Form) (s : Storage) (e : Failure)
    (co cn ins sem sch cl : String)
    (hco : f.code = some co) (hcn : f.coursename = some cn)
    (hins : f.instructor = some ins) (hsem : f.semester = some sem)
    (hsch : f.schedule = some sch) (hcl : f.classroom = some cl)
    (hload : load_courses s = .error e)
    (hn : pyStrip cn ≠ "") (hi : pyStrip ins ≠ "") :
    add_course f s = .error e := by
  obtain ⟨a1, a2, a3, a4, a5, a6, a7, a8, a9⟩ := f
  dsimp only at hco hcn hins hsem hsch hcl
  subst hco hcn hins hsem hsch hcl
  simp [add_course, required_fields, fieldValue, save_courses, hload, hn, hi]

/-- C2 counterexample: it is not true that, over every POST, the record
is rejected (missing-fields flash, redirect, catalog unchanged) exactly
when `coursename` or `instructor` is blank after trimming — a POST whose
`coursename` is blank but whose `semester` key is absent dies in
`request.form['semester']` with an HTTP 400 instead of the rejection
outcome. -/
theorem add_course_reject_iff_counterexample :
    ¬ (∀ (f : Form) (s : Storage),
        isMissingReject s (add_course f s) = true ↔
          (pyStrip (f.coursename.getD "") = "" ∨ pyStrip (f.instructor.getD "") = "")) := by
  intro h
  exact absurd ((h blankNameShortForm none).mpr (by decide)) (by decide)

/-- C2 (amended): for every POST that supplies the six directly-indexed
keys (`code`, `coursename`, `instructor`, `semester`, `schedule`,
`classroom`), the record is rejected — missing-fields flash, redirect,
nothing appended, catalog file unchanged — exactly when `coursename` or
`instructor` is blank after trimming; no other field's value causes
rejection. -/
theorem add_course_rejects_iff_keys_present (f : Form) (s : Storage)
    (co cn ins sem sch cl : String)
    (hco : f.code = some co) (hcn : f.coursename = some cn)
    (hins : f.instructor = some ins) (hsem : f.semester = some sem)
    (hsch : f.schedule = some sch) (hcl : f.classroom = some cl) :
    isMissingReject s (add_course f s) = true ↔ (pyStrip cn = "" ∨ pyStrip ins = "") := by
  constructor
  · intro h
    by_contra hnot
    push_neg at hnot
    obtain ⟨h1, h2⟩ := hnot
    cases hload : load_courses s with
    | ok cs =>
      rw [add_course_success_eq f s cs co cn ins sem sch cl
            hco hcn hins hsem hsch hcl hload h1 h2] at h
      simp [isMissingReject] at h
    | error e =>
      rw [add_course_load_error_eq f s e co cn ins sem sch cl
            hco hcn hins hsem hsch hcl hload h1 h2] at h
      simp [isMissingReject] at h
  · intro h
    rw [add_course_reject_eq f s co cn ins sem sch cl hco hcn hins hsem hsch hcl h]
    simp [isMissingReject]

/-- C2 witness: a whitespace-only `coursename` with every directly
indexed key present is rejected. -/
theorem add_course_rejects_iff_keys_present_witness :
    isMissingReject none (add_course blankNameFullForm none) = true ↔
      (pyStrip "   " = "" ∨ pyStrip "X" = "") :=
  add_course_rejects_iff_keys_present blankNameFullForm none
    "CS1" "   " "X" "" "" "" rfl rfl rfl rfl rfl rfl

/-- C4 counterexample: a POST with non-blank `coursename` and
`instructor` but every optional key absent does not succeed — it dies
with an HTTP 400 in `request.form['semester']`, so `OmittedOptionalOk`
is false. -/
theorem omitted_optional_counterexample : ¬ OmittedOptionalOk := by
  intro h
  have h2 := h omittedOptionalForm none [] "CS101" "Intro" "A. Smith"
    rfl rfl rfl rfl (by decide) (by decide) rfl rfl rfl rfl rfl rfl
  have h3 : add_course omittedOptionalForm none = .error .badRequest := rfl
  rw [h3] at h2
  simp at h2

/-- C4 (amended): with required fields non-blank, a create succeeds with
`prerequisites`, `grading` and `description` stored as empty strings only
when those three keys are omitted while `semester`, `schedule` and
`classroom` are still supplied (possibly empty); omitting `semester` (or
any directly-indexed key) instead fails with a bad-request error. -/
theorem add_course_get_fields_default (f : Form) (s : Storage) (cs : List Course)
    (co cn ins sem sch cl : String)
    (hco : f.code = some co) (hcn : f.coursename = some cn)
    (hins : f.instructor = some ins) (hsem : f.semester = some sem)
    (hsch : f.schedule = some sch) (hcl : f.classroom = some cl)
    (hload : load_courses s = .ok cs)
    (hn : pyStrip cn ≠ "") (hi : pyStrip ins ≠ "")
    (hpre : f.prerequisites = none) (hgr : f.grading = none)
    (hde : f.description = none) :
    add_course f s = .ok (.redirectCatalog (.addedSuccess cn),
      some (.catalogJson (cs ++
        [{ code := co, coursename := cn, instructor := ins,
           semester := sem, schedule := sch, classroom := cl,
           prerequisites := "", grading := "", description := "" }]))) ∧
    add_course { f with semester := none } s = .error .badRequest := by
  constructor
  · have h := add_course_success_eq f s cs co cn ins sem sch cl
      hco hcn hins hsem hsch hcl hload hn hi
    simpa [hpre, hgr, hde] using h
  · obtain ⟨a1, a2, a3, a4, a5, a6, a7, a8, a9⟩ := f
    dsimp only at hco hcn hins hsch hcl
    subst hco hcn hins hsch hcl
    simp [add_course]

/-- C4 witness: a create supplying `semester`, `schedule`, `classroom`
and omitting the three `form.get` keys succeeds with those stored empty,
while the same form without `semester` fails with a bad request. -/
theorem add_course_get_fields_default_witness :
    add_course fallForm none = .ok (.redirectCatalog (.addedSuccess "Algorithms"),
      some (.catalogJson ([] ++
        [{ code := "CS102", coursename := "Algorithms", instructor := "C. Lee",
           semester := "Fall", schedule := "TTh", classroom := "L7",
           prerequisites := "", grading := "", description := "" }]))) ∧
    add_course { fallForm with semester := none } none = .error .badRequest :=
  add_course_get_fields_default fallForm none [] "CS102" "Algorithms" "C. Lee"
    "Fall" "TTh" "L7" rfl rfl rfl rfl rfl rfl rfl (by decide) (by decide) rfl rfl rfl

/-- C7: when the storage file exists but holds malformed content,
`load_courses` fails with a parse error, and no caller catches it: the
list handler, the detail handler, and (once validation passes and
`save_courses` loads the catalog) the create handler all propagate the
same fatal parse failure. -/
theorem malformed_storage_fatal (code : String) (f : Form)
    (co cn ins sem sch cl : String)
    (hco : f.code = some co) (hcn : f.coursename = some cn)
    (hins : f.instructor = some ins) (hsem : f.semester = some sem)
    (hsch : f.schedule = some sch) (hcl : f.classroom = some cl)
    (hn : pyStrip cn ≠ "") (hi : pyStrip ins ≠ "") :
    load_courses (some .malformed) = .error .parseError ∧
    course_catalog (some .malformed) = .error .parseError ∧
    course_details code (some .malformed) = .error .parseError ∧
    add_course f (some .malformed) = .error .parseError := by
  refine ⟨rfl, rfl, rfl, ?_⟩
  exact add_course_load_error_eq f (some .malformed) .parseError co cn ins sem sch cl
    hco hcn hins hsem hsch hcl rfl hn hi

/-- C7 witness: the fatal parse failure at a concrete malformed store,
concrete lookup code and concrete valid create. -/
theorem malformed_storage_fatal_witness :
    load_courses (some .malformed) = .error .parseError ∧
    course_catalog (some .malformed) = .error .parseError ∧
    course_details "CS101" (some .malformed) = .error .parseError ∧
    add_course fallForm (some .malformed) = .error .parseError :=
  malformed_storage_fatal "CS101" fallForm "CS102" "Algorithms" "C. Lee"
    "Fall" "TTh" "L7" rfl rfl rfl rfl rfl rfl (by decide) (by decide)

/-- C10: on a successful create, the stored record holds the submitted
form values verbatim — trimming is used only in the validation test, so
required fields surrounded by whitespace are stored with the whitespace
intact, and no field is normalized before `save_courses` appends it. -/
theorem add_course_stores_verbatim (f : Form) (s : Storage) (cs : List Course)
    (co cn ins sem sch cl : String)
    (hco : f.code = some co) (hcn : f.coursename = some cn)
    (hins : f.instructor = some ins) (hsem : f.semester = some sem)
    (hsch : f.schedule = some sch) (hcl : f.classroom = some cl)
    (hload : load_courses s = .ok cs)
    (hn : pyStrip cn ≠ "") (hi : pyStrip ins ≠ "") :
    add_course f s = .ok (.redirectCatalog (.addedSuccess cn),
      some (.catalogJson (cs ++
        [{ code := co, coursename := cn, instructor := ins,
           semester := sem, schedule := sch, classroom := cl,
           prerequisites := f.prerequisites.getD "",
           grading := f.grading.getD "",
           description := f.description.getD "" }]))) :=
  add_course_success_eq f s cs co cn ins sem sch cl
    hco hcn hins hsem hsch hcl hload hn hi

/-- C10 witness: a `coursename` of "  Intro  " passes validation and is
stored with its surrounding whitespace intact. -/
theorem add_course_stores_verbatim_witness :
    add_course paddedNameForm none = .ok (.redirectCatalog (.addedSuccess "  Intro  "),
      some (.catalogJson ([] ++
        [{ code := "CS101", coursename := "  Intro  ", instructor := "A. Smith",
           semester := "Fall", schedule := "MWF", classroom := "101",
           prerequisites := paddedNameForm.prerequisites.getD "",
           grading := paddedNameForm.grading.getD "",
           description := paddedNameForm.description.getD "" }]))) :=
  add_course_stores_verbatim paddedNameForm none [] "CS101" "  Intro  " "A. Smith"
    "Fall" "MWF" "101" rfl rfl rfl rfl rfl rfl rfl (by decide) (by decide)

/-- C8: in the counter-bearing variant (modelled from the spec, see
`Metrics`), every list-handler invocation on readable storage increments
the process-wide request counter, and every create that fails validation
increments the process-wide error counter. -/
theorem counters_incremented (m : Metrics) (s : Storage) (cs : List Course)
    (f : Form) (co cn ins sem sch cl : String)
    (hload : load_courses s = .ok cs)
    (hco : f.code = some co) (hcn : f.coursename = some cn)
    (hins : f.instructor = some ins) (hsem : f.semester = some sem)
    (hsch : f.schedule = some sch) (hcl : f.classroom = some cl)
    (hblank : pyStrip cn = "" ∨ pyStrip ins = "") :
    course_catalog_counted m s =
      .ok (.renderCatalog cs, s, { m with request_counts := m.request_counts + 1 }) ∧
    add_course_counted f m s =
      .ok (.redirectCatalog (.missingFields
        ((if pyStrip cn = "" then ["coursename"] else []) ++
         (if pyStrip ins = "" then ["instructor"] else []))), s,
        { m with error_counts := m.error_counts + 1 }) := by
  constructor
  · simp [course_catalog_counted, hload]
  · obtain ⟨a1, a2, a3, a4, a5, a6, a7, a8, a9⟩ := f
    dsimp only at hco hcn hins hsem hsch hcl
    subst hco hcn hins hsem hsch hcl
    by_cases h1 : pyStrip cn = "" <;> by_cases h2 : pyStrip ins = "" <;>
      (simp [add_course_counted, required_fields, fieldValue, h1, h2]; try tauto)

/-- C8 witness: starting from zeroed counters, a list render bumps the
request counter to 1 and a blank-`coursename` create bumps the error
counter to 1. -/
theorem counters_incremented_witness :
    course_catalog_counted ⟨0, 0⟩ none =
      .ok (.renderCatalog [], none, { Metrics.mk 0 0 with request_counts := 0 + 1 }) ∧
    add_course_counted blankNameFullForm ⟨0, 0⟩ none =
      .ok (.redirectCatalog (.missingFields
        ((if pyStrip "   " = "" then ["coursename"] else []) ++
         (if pyStrip "X" = "" then ["instructor"] else []))), none,
        { Metrics.mk 0 0 with error_counts := 0 + 1 }) :=
  counters_incremented ⟨0, 0⟩ none [] blankNameFullForm "CS1" "   " "X" "" "" ""
    rfl rfl rfl rfl rfl rfl rfl (Or.inl (by decide))

end CourseCatalog
